import Mathlib

/-!
Shallow embedding of the Memory Intelligence subsystem of the repository
(`memory/pattern_recognition.py`, `memory/relationship_memory.py`,
`proactive/proactive_intelligence.py`, `proactive/autonomous_assistant.py`).

Conventions of the embedding:
* Python floats are modelled as `ℚ` (the arithmetic of the claims is exact
  decimal arithmetic; no claim is about binary floating-point rounding).
* Python dicts that the code reads with `.get(key, default)` are modelled as
  structures with `Option` fields, `getD` supplying the default.
* An `Experience` record's wall-clock timestamp only ever enters the logic as
  its parsed hour-of-day (`datetime...hour`); it is therefore modelled directly
  as the optional parse result `tsHour : Option ℕ` (`none` = absent/malformed).
* `time.time()` values are passed in explicitly as a `now : ℚ` parameter.
* Database / session plumbing (SQLAlchemy, the experience store) is external:
  functions take the retrieved records or the stored row as arguments and
  return the updated row, exactly mirroring the in-memory mutations.
-/

namespace AILifeOS

/-- Python's substring test `needle in hay` on character lists. -/
def subMem (needle : List Char) : List Char → Bool
  | [] => needle.isEmpty
  | c :: cs => needle.isPrefixOf (c :: cs) || subMem needle cs

/-- Python's `needle in hay` for strings (also covers `'?' in message` etc.). -/
def pyIn (needle hay : String) : Bool :=
  subMem needle.toList hay.toList

/-- Python's `str.lower()` (ASCII, as in the source's keyword matching).
Written as a list map so that it evaluates inside the kernel. -/
def pyLower (s : String) : String :=
  String.mk (s.data.map Char.toLower)

/-- One `Counter`/dict bump: increment the count of `k`, inserting it at the
end on first occurrence (Python dicts preserve insertion order). -/
def bump {α : Type} [DecidableEq α] : List (α × ℕ) → α → List (α × ℕ)
  | [], k => [(k, 1)]
  | (k', n) :: rest, k =>
    if k' = k then (k', n + 1) :: rest else (k', n) :: bump rest k

/-- `collections.Counter` of a list, in first-occurrence order. -/
def tally {α : Type} [DecidableEq α] (ks : List α) : List (α × ℕ) :=
  ks.foldl bump []

/-- `counter.get(k, 0)`. -/
def countOf {α : Type} [DecidableEq α] (l : List (α × ℕ)) (k : α) : ℕ :=
  ((l.find? fun p => decide (p.1 = k)).map (·.2)).getD 0

/-- Stable descending insertion (by a numeric key): `x` goes after every
already-placed element with a key ≥ its own. -/
def insDesc {α : Type} (key : α → ℕ) (x : α) : List α → List α
  | [] => [x]
  | y :: ys => if key y < key x then x :: y :: ys else y :: insDesc key x ys

/-- Stable descending sort by a numeric key; on ties the earlier element stays
first, matching Python's stable `sorted`/`Counter.most_common`. -/
def sortByKeyDesc {α : Type} (key : α → ℕ) (l : List α) : List α :=
  l.foldl (fun acc x => insDesc key x acc) []

/-- Ascending insertion for `sorted` over `ℕ`. -/
def insAsc (x : ℕ) : List ℕ → List ℕ
  | [] => [x]
  | y :: ys => if x < y then x :: y :: ys else y :: insAsc x ys

/-- Python's `sorted` over a list of ints. -/
def sortAsc (l : List ℕ) : List ℕ :=
  l.foldl (fun acc x => insAsc x acc) []

/-- Python's `round(x, 2)`.  Everywhere the source rounds, the rounded value is
an exact multiple of 1/100 (proved where used), so the tie-breaking rule of the
float `round` is irrelevant here. -/
def round2 (q : ℚ) : ℚ :=
  ((round (q * 100) : ℤ) : ℚ) / 100

/-- Python's `int(x)` on a float: truncation toward zero. -/
def pyInt (q : ℚ) : ℤ :=
  if 0 ≤ q then ⌊q⌋ else ⌈q⌉

/-- Rendering of `f"{x:.1%}"` (percent with one decimal).  Used only inside
description strings that no logic ever reads back. -/
def pctString (q : ℚ) : String :=
  let t : ℤ := round (q * 1000)
  toString (t / 10) ++ "." ++ toString (t % 10) ++ "%"

/-- Python's `str(...)` of a list of strings, e.g. `"['work', 'stress']"`. -/
def pyStrList (l : List String) : String :=
  "[" ++ String.intercalate ", " (l.map fun s => "'" ++ s ++ "'") ++ "]"

/-! ### The experience record (input shape of the pattern engine) -/

/-- The value stored under `'emotional_context'`: the code distinguishes a dict
of emotion-name → intensity tags from a plain string. -/
inductive EmoCtx where
  | dict (tags : List (String × ℚ))
  | str (s : String)
deriving DecidableEq

/-- One retrieved experience, as read by `pattern_recognition.py`: the payload
fields accessed via `exp.get('experience', {}).get(...)` plus the hour parsed
from the top-level timestamp (`none` when absent or unparseable, matching the
`except: continue` in `_detect_temporal_patterns`). -/
structure Experience where
  etype : Option String
  message : Option String
  emoCtx : Option EmoCtx
  emoIntensity : Option ℚ
  tsHour : Option ℕ
deriving DecidableEq

/-- `self.min_pattern_occurrences` (constructor default). -/
def minPatternOccurrences : ℕ := 3

/-- `self.analysis_window_days` (constructor default). -/
def analysisWindowDays : ℕ := 14

/-- `exp.get('experience', {}).get('type') == 'user_message'` filter. -/
def userMessages (exps : List Experience) : List Experience :=
  exps.filter fun e => e.etype == some "user_message"

/-- The keyword-to-topic table of `_extract_topics`. -/
def topicKeywords : List (String × List String) :=
  [("work", ["work", "job", "career", "office", "project", "deadline", "meeting"]),
   ("stress", ["stress", "overwhelmed", "pressure", "anxiety", "worried"]),
   ("time", ["time", "schedule", "busy", "calendar", "manage", "planning"]),
   ("health", ["health", "tired", "sleep", "exercise", "wellness", "fitness"]),
   ("learning", ["learn", "understand", "study", "confused", "education"]),
   ("technology", ["computer", "software", "app", "technical", "digital"]),
   ("relationship", ["family", "friend", "colleague", "relationship", "social"]),
   ("productivity", ["productive", "efficient", "organize", "focus", "task"]),
   ("emotional", ["feel", "emotion", "mood", "upset", "happy", "sad"])]

/-- `_extract_topics`: every topic one of whose keywords occurs in the
lowercased message, in table order. -/
def extractTopics (message : String) : List String :=
  let m := pyLower message
  (topicKeywords.filter fun p => p.2.any fun k => pyIn k m).map (·.1)

/-- Result shape of `_detect_behavioral_patterns`. -/
structure BehavioralPatterns where
  detected_behaviors : List String
  behavior_frequency : List (String × List (String × ℕ))
  consistency_score : ℚ
deriving DecidableEq

/-- `_detect_behavioral_patterns`. -/
def detectBehavioralPatterns (exps : List Experience) : BehavioralPatterns :=
  let msgs := userMessages exps
  let behaviors :=
    if minPatternOccurrences ≤ msgs.length then
      let lengths := msgs.map fun e => (e.message.getD "").length
      let lenBehaviors :=
        if !lengths.isEmpty then
          let avg := (lengths.sum : ℚ) / lengths.length
          if avg < 30 then ["concise_communicator"]
          else if 100 < avg then ["detailed_communicator"] else []
        else []
      let topics := msgs.foldl
        (fun acc e => acc ++ extractTopics (pyLower (e.message.getD ""))) []
      if !topics.isEmpty then
        let topicCounts := tally topics
        let dominant := (topicCounts.filter fun p => 3 ≤ p.2).map (·.1)
        if !dominant.isEmpty then
          (lenBehaviors ++ ["focus_on_" ++ dominant.headD ""],
           [(pyStrList dominant, topicCounts)])
        else (lenBehaviors, [])
      else (lenBehaviors, [])
    else ([], [])
  { detected_behaviors := behaviors.1
    behavior_frequency := behaviors.2
    consistency_score := min ((behaviors.1.length : ℚ) * (2/10)) 1 }

/-- Result shape of `_detect_emotional_patterns`. -/
structure EmotionalPatterns where
  emotional_trends : List String
  stress_frequency : ℚ
  emotional_stability : ℚ
  dominant_emotions : List (String × ℕ)
deriving DecidableEq

/-- The per-record data `_detect_emotional_patterns` actually reads: the
experiences holding an `'emotional_context'` or `'emotional_intensity'` key,
projected to `(context-with-{}-default, intensity-with-0-default)`. -/
def emoSigs (exps : List Experience) : List (EmoCtx × ℚ) :=
  (exps.filter fun e => e.emoCtx.isSome || e.emoIntensity.isSome).map
    fun e => (e.emoCtx.getD (EmoCtx.dict []), e.emoIntensity.getD 0)

/-- A stress occurrence: `'stress'` key of a dict context, or the substring
`'stress'` of a lowercased string context. -/
def ctxStressHit : EmoCtx → Bool
  | .dict tags => tags.any fun p => p.1 == "stress"
  | .str s => pyIn "stress" (pyLower s)

/-- The string-context fallback emotion list of `_detect_emotional_patterns`. -/
def strEmotionList : List String :=
  ["stress", "happy", "sad", "angry", "excited", "calm"]

/-- Accumulate `emotion_counts` for one context. -/
def addEmotions (acc : List (String × ℕ)) : EmoCtx → List (String × ℕ)
  | .dict tags => tags.foldl (fun a p => bump a p.1) acc
  | .str s => strEmotionList.foldl
      (fun a emo => if pyIn emo (pyLower s) then bump a emo else a) acc

/-- `stress_frequency = stress_count / len(emotional_experiences)`. -/
def emoStressFreq (sigs : List (EmoCtx × ℚ)) : ℚ :=
  ((sigs.filter fun p => ctxStressHit p.1).length : ℚ) / sigs.length

/-- `emotional_stability = max(0, 1 - total_intensity / len(...))`. -/
def emoStability (sigs : List (EmoCtx × ℚ)) : ℚ :=
  max 0 (1 - (sigs.map (·.2)).sum / sigs.length)

/-- The trend tags derived from the two scores. -/
def emoTrends (sigs : List (EmoCtx × ℚ)) : List String :=
  (if 3/10 < emoStressFreq sigs then ["high_stress_frequency"] else []) ++
  (if 7/10 < emoStability sigs then ["emotionally_stable"]
   else if emoStability sigs < 3/10 then ["emotionally_variable"] else [])

/-- `_detect_emotional_patterns`, computed from the projected signals. -/
def detectEmotionalFromSigs (sigs : List (EmoCtx × ℚ)) : EmotionalPatterns :=
  if minPatternOccurrences ≤ sigs.length then
    { emotional_trends := emoTrends sigs
      stress_frequency := emoStressFreq sigs
      emotional_stability := emoStability sigs
      dominant_emotions :=
        (sortByKeyDesc (·.2) (sigs.foldl (fun acc p => addEmotions acc p.1) [])).take 3 }
  else
    { emotional_trends := [], stress_frequency := 0
      emotional_stability := 0, dominant_emotions := [] }

/-- `_detect_emotional_patterns`. -/
def detectEmotionalPatterns (exps : List Experience) : EmotionalPatterns :=
  detectEmotionalFromSigs (emoSigs exps)

/-- Result shape of `_detect_temporal_patterns`. -/
structure TemporalPatterns where
  activity_periods : List String
  peak_hours : List ℕ
  schedule_consistency : ℚ
deriving DecidableEq

/-- `_detect_temporal_patterns`. -/
def detectTemporalPatterns (exps : List Experience) : TemporalPatterns :=
  let hours := exps.foldl
    (fun acc e => match e.tsHour with | some h => acc ++ [h] | none => acc) []
  if minPatternOccurrences ≤ hours.length then
    let hourCounts := tally hours
    if !hourCounts.isEmpty then
      let maxActivity := (hourCounts.map (·.2)).foldl max 0
      let peaks := (hourCounts.filter
        fun p => decide ((maxActivity : ℚ) * (7/10) ≤ (p.2 : ℚ))).map (·.1)
      let activeHours :=
        ((List.range 24).filter fun h => decide (0 < countOf hourCounts h)).length
      { activity_periods :=
          (if peaks.any fun h => decide (6 ≤ h ∧ h < 12)
           then ["morning_active"] else []) ++
          (if peaks.any fun h => decide (12 ≤ h ∧ h < 18)
           then ["afternoon_active"] else []) ++
          (if peaks.any fun h => decide ((18 ≤ h ∧ h ≤ 23) ∨ (0 ≤ h ∧ h < 6))
           then ["evening_active"] else [])
        peak_hours := sortAsc peaks
        schedule_consistency := max 0 (1 - (activeHours : ℚ) / 24) }
    else { activity_periods := [], peak_hours := [], schedule_consistency := 0 }
  else { activity_periods := [], peak_hours := [], schedule_consistency := 0 }

/-- Result shape of `_detect_communication_patterns`. -/
structure CommunicationPatterns where
  communication_style : List String
  response_preferences : List String
  interaction_frequency : ℚ
deriving DecidableEq

/-- `_detect_communication_patterns`. -/
def detectCommunicationPatterns (exps : List Experience) : CommunicationPatterns :=
  let msgs := userMessages exps
  if !msgs.isEmpty then
    let questionCount := (msgs.filter fun e => pyIn "?" (e.message.getD "")).length
    let exclamationCount := (msgs.filter fun e => pyIn "!" (e.message.getD "")).length
    let total := msgs.length
    { communication_style :=
        (if 4/10 < (questionCount : ℚ) / total then ["inquisitive"] else []) ++
        (if 3/10 < (exclamationCount : ℚ) / total then ["expressive"] else [])
      response_preferences := []
      interaction_frequency := (msgs.length : ℚ) / (max 7 analysisWindowDays : ℕ) }
  else
    { communication_style := [], response_preferences := []
      interaction_frequency := 0 }

/-- Result shape of `_detect_help_seeking_patterns`. -/
structure HelpSeekingPatterns where
  help_frequency : ℚ
  help_topics : List String
  problem_solving_style : List String
deriving DecidableEq

/-- The help indicator keywords. -/
def helpIndicators : List String :=
  ["help", "assist", "support", "stuck", "confused", "how to", "need"]

/-- `_detect_help_seeking_patterns`. -/
def detectHelpSeekingPatterns (exps : List Experience) : HelpSeekingPatterns :=
  let msgs := (exps.filter fun e => e.etype == some "user_message").map
    fun e => pyLower (e.message.getD "")
  let helpRequests := msgs.filter fun m => helpIndicators.any fun k => pyIn k m
  if !msgs.isEmpty then
    let allTopics := helpRequests.foldl (fun acc m => acc ++ extractTopics m) []
    let helpTopics :=
      if !allTopics.isEmpty then
        ((sortByKeyDesc (·.2) (tally allTopics)).take 3).map (·.1)
      else []
    let hf := (helpRequests.length : ℚ) / msgs.length
    { help_frequency := hf
      help_topics := helpTopics
      problem_solving_style :=
        if 3/10 < hf then ["frequent_help_seeker"]
        else if hf < 1/10 then ["independent_problem_solver"]
        else ["balanced_help_seeker"] }
  else { help_frequency := 0, help_topics := [], problem_solving_style := [] }

/-! ### Summary, confidence, insights, and `analyze_all_patterns` -/

/-- Result shape of `_generate_pattern_summary`. -/
structure PatternSummary where
  total_patterns_detected : ℕ
  pattern_categories : ℕ
  strongest_patterns : List String
  pattern_diversity : ℕ
deriving DecidableEq

/-- `_generate_pattern_summary`.  The analysis dict is iterated in insertion
order, so the pattern lists concatenate in the category order below; the five
keys ending in `_patterns` give `pattern_categories = 5`. -/
def generatePatternSummary (b : BehavioralPatterns) (e : EmotionalPatterns)
    (t : TemporalPatterns) (c : CommunicationPatterns)
    (h : HelpSeekingPatterns) : PatternSummary :=
  let allPatterns := b.detected_behaviors ++ e.emotional_trends ++
    t.activity_periods ++ c.communication_style ++ h.problem_solving_style
  { total_patterns_detected := allPatterns.length
    pattern_categories := 5
    strongest_patterns := if !allPatterns.isEmpty then allPatterns.take 5 else []
    pattern_diversity := if !allPatterns.isEmpty then allPatterns.dedup.length else 0 }

/-- `_calculate_overall_confidence`, as a function of the two dict entries it
reads (`total_experiences` and `pattern_summary.total_patterns_detected`). -/
def calcOverallConfidence (totalExperiences totalPatterns : ℕ) : ℚ :=
  let dataConfidence := min ((totalExperiences : ℚ) / 50) 1
  let patternConfidence := min ((totalPatterns : ℚ) / 10) 1
  let base :=
    if 0 < totalExperiences then max (1/10) ((dataConfidence + patternConfidence) / 2)
    else 0
  round2 base

/-- `_generate_insights`. -/
def generateInsights (b : BehavioralPatterns) (e : EmotionalPatterns)
    (t : TemporalPatterns) (c : CommunicationPatterns)
    (h : HelpSeekingPatterns) : List String :=
  ((if b.detected_behaviors.contains "concise_communicator" then
      ["Provide brief, direct responses - user prefers concise communication"]
    else if b.detected_behaviors.contains "detailed_communicator" then
      ["User appreciates detailed explanations - provide comprehensive responses"]
    else []) ++
   (if 3/10 < e.stress_frequency then
      ["Monitor for stress indicators and offer proactive support"] else []) ++
   (if e.emotional_trends.contains "emotionally_stable" then
      ["User maintains good emotional balance - focus on maintaining current strategies"]
    else if e.emotional_trends.contains "high_stress_frequency" then
      ["Consider stress management interventions and regular check-ins"]
    else []) ++
   (if t.activity_periods.contains "morning_active" then
      ["Schedule important interactions for morning hours when user is most active"]
    else if t.activity_periods.contains "evening_active" then
      ["User is most active in evenings - optimize support for after-hours"]
    else []) ++
   (if 7/10 < t.schedule_consistency then
      ["User maintains consistent schedule - can predict availability patterns"]
    else []) ++
   (if c.communication_style.contains "inquisitive" then
      ["User asks many questions - prepare comprehensive explanations"] else []) ++
   (if c.communication_style.contains "expressive" then
      ["User communicates expressively - match energy level in responses"] else []) ++
   (if 3/10 < h.help_frequency then
      ["User benefits from proactive assistance - anticipate needs before explicit requests"]
    else if h.help_frequency < 1/10 then
      ["User prefers independence - offer suggestions rather than detailed guidance"]
    else []) ++
   (if !h.help_topics.isEmpty then
      ["User frequently needs help with " ++ h.help_topics.headD "" ++
       " - prepare specialized resources"]
    else [])).take 7

/-- The dict returned by `analyze_all_patterns`. -/
structure AnalysisResult where
  user_id : String
  analysis_timestamp : ℚ
  total_experiences : ℕ
  analysis_period_days : ℕ
  behavioral_patterns : BehavioralPatterns
  emotional_patterns : EmotionalPatterns
  temporal_patterns : TemporalPatterns
  communication_patterns : CommunicationPatterns
  help_seeking_patterns : HelpSeekingPatterns
  pattern_summary : PatternSummary
  confidence_score : ℚ
  actionable_insights : List String
  message : Option String
deriving DecidableEq

/-- `_empty_analysis_result`. -/
def emptyAnalysisResult (now : ℚ) (reason : String) : AnalysisResult :=
  { user_id := ""
    analysis_timestamp := now
    total_experiences := 0
    analysis_period_days := 0
    behavioral_patterns :=
      { detected_behaviors := [], behavior_frequency := [], consistency_score := 0 }
    emotional_patterns :=
      { emotional_trends := [], stress_frequency := 0
        emotional_stability := 0, dominant_emotions := [] }
    temporal_patterns :=
      { activity_periods := [], peak_hours := [], schedule_consistency := 0 }
    communication_patterns :=
      { communication_style := [], response_preferences := []
        interaction_frequency := 0 }
    help_seeking_patterns :=
      { help_frequency := 0, help_topics := [], problem_solving_style := [] }
    pattern_summary :=
      { total_patterns_detected := 0, pattern_categories := 0
        strongest_patterns := [], pattern_diversity := 0 }
    confidence_score := 0
    actionable_insights := ["Continue interacting to build pattern recognition data"]
    message := some reason }

/-- `analyze_all_patterns(user_id, days)`, as a total function of the retrieved
experience list (`self.memory_manager.retrieve_experiences(user_id, 200)`;
a retrieval exception yields the empty list, as in the source's `except`).
Note that the `days` argument is only echoed into `analysis_period_days`:
no time-window filtering happens anywhere. -/
def analyzeAllPatterns (now : ℚ) (userId : String) (days : ℕ)
    (experiences : List Experience) : AnalysisResult :=
  if experiences.isEmpty then
    emptyAnalysisResult now "Insufficient interaction data"
  else
    let b := detectBehavioralPatterns experiences
    let e := detectEmotionalPatterns experiences
    let t := detectTemporalPatterns experiences
    let c := detectCommunicationPatterns experiences
    let h := detectHelpSeekingPatterns experiences
    let summary := generatePatternSummary b e t c h
    { user_id := userId
      analysis_timestamp := now
      total_experiences := experiences.length
      analysis_period_days := days
      behavioral_patterns := b
      emotional_patterns := e
      temporal_patterns := t
      communication_patterns := c
      help_seeking_patterns := h
      pattern_summary := summary
      confidence_score :=
        calcOverallConfidence experiences.length summary.total_patterns_detected
      actionable_insights := generateInsights b e t c h
      message := none }

/-! ### `predict_user_needs` -/

/-- A prediction record as constructed by `predict_user_needs`. -/
structure Prediction where
  predicted_need : String
  confidence : ℚ
  reasoning : String
  suggested_actions : List String
deriving DecidableEq

/-- Value of a digit run, as `int(...)` of the matched string. -/
def digitsVal (cs : List Char) : ℕ :=
  cs.foldl (fun n c => n * 10 + (c.toNat - 48)) 0

/-- The first maximal digit run of a string (`re.findall`'s first match). -/
def firstDigitRun : List Char → Option (List Char)
  | [] => none
  | c :: cs =>
    if c.isDigit then some (c :: cs.takeWhile Char.isDigit)
    else firstDigitRun cs

/-- `int(re.findall(r'\d+', s)[0])` when a digit exists. -/
def firstNat (s : String) : Option ℕ :=
  (firstDigitRun s.toList).map digitsVal

/-- The consolidation-insight parsing loop of `predict_user_needs`: predictions
are scraped out of free-text insight strings. -/
def insightPredictions (insights : List String) : List Prediction :=
  insights.foldl
    (fun acc insight =>
      let low := pyLower insight
      if pyIn "stress" low && pyIn "pattern" low then
        let stressCount := (firstNat insight).getD 1
        acc ++ [{ predicted_need := "stress_management_support"
                  confidence := min (9/10) (6/10 + (stressCount : ℚ) * (5/100))
                  reasoning := insight
                  suggested_actions :=
                    ["Proactive stress management", "Monitor stress triggers"] }]
      else if pyIn "assistance" low || pyIn "help" low then
        let helpCount := (firstNat insight).getD 1
        acc ++ [{ predicted_need := "proactive_assistance"
                  confidence := min (85/100) (1/2 + (helpCount : ℚ) * (1/100))
                  reasoning := insight
                  suggested_actions :=
                    ["Anticipate user needs", "Offer proactive guidance"] }]
      else if pyIn "learning" low then
        acc ++ [{ predicted_need := "learning_optimization"
                  confidence := 7/10
                  reasoning := insight
                  suggested_actions :=
                    ["Optimize learning approach", "Provide study techniques"] }]
      else acc)
    []

/-- `str(exp_data.get('message', '')).lower()`. -/
def msgLower (e : Experience) : String := pyLower (e.message.getD "")

/-- `'stress' in emotional_context` in the fallback loop: key membership on a
dict, raw substring on a string, false when the key is absent. -/
def ctxHasStress (e : Experience) : Bool :=
  match e.emoCtx with
  | some (.dict tags) => tags.any fun p => p.1 == "stress"
  | some (.str s) => pyIn "stress" s
  | none => false

/-- Fallback stress counter of `predict_user_needs`. -/
def fallbackStressCount (exps : List Experience) : ℕ :=
  (exps.filter fun e =>
    ctxHasStress e ||
      ["stress", "overwhelmed", "pressure"].any fun w => pyIn w (msgLower e)).length

/-- Fallback help counter of `predict_user_needs`. -/
def fallbackHelpCount (exps : List Experience) : ℕ :=
  (exps.filter fun e =>
    ["help", "assist", "support", "guidance"].any fun w => pyIn w (msgLower e)).length

/-- Fallback work counter of `predict_user_needs`. -/
def fallbackWorkCount (exps : List Experience) : ℕ :=
  (exps.filter fun e =>
    ["work", "job", "project", "deadline"].any fun w => pyIn w (msgLower e)).length

/-- The direct-analysis fallback of `predict_user_needs`. -/
def fallbackPredictions (exps : List Experience) : List Prediction :=
  (if 2 ≤ fallbackStressCount exps then
     [{ predicted_need := "stress_management_support"
        confidence := min (9/10) (1/2 + (fallbackStressCount exps : ℚ) * (1/10))
        reasoning := "Detected " ++ toString (fallbackStressCount exps) ++
          " stress-related interactions"
        suggested_actions := ["Stress management techniques", "Wellness check-ins"] }]
   else []) ++
  (if 3 ≤ fallbackHelpCount exps then
     [{ predicted_need := "proactive_assistance"
        confidence := min (85/100) (4/10 + (fallbackHelpCount exps : ℚ) * (5/100))
        reasoning := "User requests help frequently (" ++
          toString (fallbackHelpCount exps) ++ " instances)"
        suggested_actions := ["Proactive guidance", "Anticipate needs"] }]
   else []) ++
  (if 5 ≤ fallbackWorkCount exps then
     [{ predicted_need := "productivity_optimization"
        confidence := 3/4
        reasoning := "Strong work focus detected (" ++
          toString (fallbackWorkCount exps) ++ " mentions)"
        suggested_actions := ["Productivity tips", "Workflow optimization"] }]
   else [])

/-- The dict returned by `predict_user_needs`. -/
structure PredictResult where
  predictions : List Prediction
  prediction_confidence : ℚ
  based_on_experiences : ℕ
deriving DecidableEq

/-- The consolidation-derived predictions: `none` models the consolidation
call raising (the `except` path), `some l` a successful call returning the
insight strings `l`. -/
def consolPreds (consolidationInsights : Option (List String)) : List Prediction :=
  match consolidationInsights with
  | none => []
  | some l => insightPredictions l

/-- `predict_user_needs`, as a function of the consolidation outcome and the
retrieved experiences (`retrieve_experiences(user_id, 50)`); the final
`based_on_experiences` re-retrieves with limit 10 from the same store. -/
def predictUserNeeds (consolidationInsights : Option (List String))
    (exps : List Experience) : PredictResult :=
  let base := consolPreds consolidationInsights
  let preds := if base.isEmpty then fallbackPredictions exps else base
  { predictions := preds
    prediction_confidence :=
      round2 (if preds.isEmpty then 0 else (preds.map (·.confidence)).sum / preds.length)
    based_on_experiences := min 10 exps.length }

/-! ### Relationship memory (`relationship_memory.py`)

The SQLAlchemy row is modelled as a structure; `add_or_update_relationship`
splits into the create branch and the update branch (the session lookup and
commit are the storage layer; on storage failure the source rolls back and
returns `False` with no mutation, so the pure state transition below is
exactly the committed effect). -/

/-- The parts of the stored `interaction_data` dict the logic reads
(`_generate_context_tags` reads only `'message'`). -/
structure InteractionData where
  message : Option String
deriving DecidableEq

/-- A `RelationshipEntity` row (per user and entity name). -/
structure Relationship where
  entity_name : String
  entity_type : String
  interaction_history : List InteractionData
  emotional_associations : List (String × ℚ)
  relationship_strength : ℚ
  trust_level : ℚ
  familiarity : ℚ
  total_interactions : ℕ
  positive_interactions : ℕ
  negative_interactions : ℕ
  context_tags : List String
deriving DecidableEq

/-- The creation-branch positive emotion set. -/
def createPosEmotions : List String := ["positive", "happy"]

/-- The creation-branch negative emotion set. -/
def createNegEmotions : List String := ["stress", "negative"]

/-- The update-branch positive emotion set. -/
def updatePosEmotions : List String := ["positive", "happy", "excited", "grateful"]

/-- The update-branch negative emotion set. -/
def updateNegEmotions : List String := ["stress", "frustrated", "angry", "sad"]

/-- `_generate_context_tags`. -/
def generateContextTags (idata : InteractionData)
    (emos : List (String × ℚ)) : List String :=
  let emoTags := emos.map fun p => "emotion:" ++ p.1
  let m := pyLower (idata.message.getD "")
  emoTags ++
    (if pyIn "work" m then ["context:work"] else []) ++
    (if pyIn "help" m then ["context:help"] else []) ++
    (if pyIn "problem" m || pyIn "issue" m then ["context:problem"] else []) ++
    (if pyIn "good" m || pyIn "great" m then ["context:positive"] else [])

/-- The create branch of `add_or_update_relationship` (entity unseen).
`emos = []` models both a missing (`None`) and an empty emotional-association
dict: both are falsy wherever the source tests them. -/
def createRelationship (entityName entityType : String)
    (idata : InteractionData) (emos : List (String × ℚ)) : Relationship :=
  { entity_name := entityName
    entity_type := entityType
    interaction_history := [idata]
    emotional_associations := emos
    relationship_strength := 1/10
    trust_level := 1/2
    familiarity := 1/20
    total_interactions := 1
    positive_interactions :=
      if !emos.isEmpty && emos.any (fun p => createPosEmotions.contains p.1)
      then 1 else 0
    negative_interactions :=
      if !emos.isEmpty && emos.any (fun p => createNegEmotions.contains p.1)
      then 1 else 0
    context_tags := generateContextTags idata emos }

/-- The `(old + new) / 2` weighted blend of one emotional association into
the stored dict (new keys append in insertion order). -/
def blendEmotion (cur : List (String × ℚ)) (emotion : String)
    (intensity : ℚ) : List (String × ℚ) :=
  if cur.any fun p => p.1 == emotion then
    cur.map fun p => if p.1 == emotion then (p.1, (p.2 + intensity) / 2) else p
  else cur ++ [(emotion, intensity)]

/-- The relationship-strength computation of the update branch. -/
def computeStrength (familiarity : ℚ) (pos neg : ℕ) : ℚ :=
  if 0 < pos + neg then
    familiarity * (6/10) + ((pos : ℚ) / ((pos + neg : ℕ) : ℚ)) * (4/10)
  else familiarity * (5/10)

/-- The update branch of `add_or_update_relationship` (entity already seen). -/
def updateRelationship (r : Relationship) (idata : InteractionData)
    (emos : List (String × ℚ)) : Relationship :=
  let total := r.total_interactions + 1
  let emoAssoc :=
    if !emos.isEmpty then
      emos.foldl (fun cur p => blendEmotion cur p.1 p.2) r.emotional_associations
    else r.emotional_associations
  let familiarity := min 1 ((total : ℚ) / 20)
  let isPositive := emos.any fun p => updatePosEmotions.contains p.1
  let isNegative := emos.any fun p => updateNegEmotions.contains p.1
  let pos :=
    if !emos.isEmpty && isPositive then r.positive_interactions + 1
    else r.positive_interactions
  let neg :=
    if !emos.isEmpty && !isPositive && isNegative then r.negative_interactions + 1
    else r.negative_interactions
  { r with
    interaction_history := r.interaction_history ++ [idata]
    total_interactions := total
    emotional_associations := emoAssoc
    familiarity := familiarity
    positive_interactions := pos
    negative_interactions := neg
    relationship_strength := computeStrength familiarity pos neg }

/-- A sequence of further `add_or_update_relationship` calls on an existing
row (each supplying its interaction data and emotional associations). -/
def runUpdates (r : Relationship)
    (steps : List (InteractionData × List (String × ℚ))) : Relationship :=
  steps.foldl (fun acc s => updateRelationship acc s.1 s.2) r

/-! ### Proactive intelligence (`proactive_intelligence.py`) -/

/-- A `ProactiveTask` dict as created by `_generate_proactive_plan`.  The
`execution_window` key is optional because no creation site sets it
(`_calculate_execution_window` has no caller); the cleanup and readiness
checks read it with defaults. -/
structure PTask where
  id : String
  ttype : String
  category : String
  confidence : ℚ
  priority : String
  description : String
  reasoning : String
  suggested_actions : Option (List String)
  timestamp : ℚ
  execution_window : Option (ℚ × ℚ)
deriving DecidableEq

/-- `_determine_priority`. -/
def determinePriority (confidence : ℚ) (predictedNeed : String) : String :=
  let highPriorityNeeds :=
    ["stress_management_support", "immediate_stress_relief", "urgent_assistance"]
  if 9/10 < confidence || highPriorityNeeds.contains predictedNeed then "urgent"
  else if 8/10 < confidence then "high"
  else if 7/10 < confidence then "medium"
  else "low"

/-- `_generate_task_description`. -/
def generateTaskDescription (predictedNeed : String) (confidence : ℚ) : String :=
  let pct := pctString confidence
  if predictedNeed = "stress_management_support" then
    "Provide stress management assistance (confidence: " ++ pct ++ ")"
  else if predictedNeed = "assistance_with_work" then
    "Offer work-related productivity support (confidence: " ++ pct ++ ")"
  else if predictedNeed = "learning_support" then
    "Provide learning optimization guidance (confidence: " ++ pct ++ ")"
  else if predictedNeed = "productivity_optimization" then
    "Suggest productivity improvements (confidence: " ++ pct ++ ")"
  else if predictedNeed = "emotional_support" then
    "Offer emotional wellness support (confidence: " ++ pct ++ ")"
  else
    "Provide proactive assistance with " ++
      (predictedNeed.map fun c => if c = '_' then ' ' else c) ++
      " (confidence: " ++ pct ++ ")"

/-- One prediction-derived task of `_generate_proactive_plan` (`idx` is
`len(tasks)` at append time). -/
def genTask (now : ℚ) (idx : ℕ) (p : Prediction) : PTask :=
  { id := "proactive_" ++ toString (pyInt now) ++ "_" ++ toString idx
    ttype := "proactive_intervention"
    category := p.predicted_need
    confidence := p.confidence
    priority := determinePriority p.confidence p.predicted_need
    description := generateTaskDescription p.predicted_need p.confidence
    reasoning := p.reasoning
    suggested_actions := some p.suggested_actions
    timestamp := now
    execution_window := none }

/-- The prediction loop of `_generate_proactive_plan` (threshold 0.5). -/
def genPlanTasks (now : ℚ) (idx : ℕ) : List Prediction → List PTask
  | [] => []
  | p :: ps =>
    if 1/2 ≤ p.confidence then genTask now idx p :: genPlanTasks now (idx + 1) ps
    else genPlanTasks now idx ps

/-- `_generate_proactive_plan(pattern_data, predictions)`, as a function of
`pattern_data['confidence_score']` and the prediction list. -/
def generateProactivePlan (now : ℚ) (patternConfidence : ℚ)
    (preds : List Prediction) : List PTask :=
  let tasks := genPlanTasks now 0 preds
  if tasks.isEmpty && decide (1/2 < patternConfidence) then
    [{ id := "pattern_general_" ++ toString (pyInt now)
       ttype := "pattern_based_assistance"
       category := "general_support"
       confidence := patternConfidence
       priority := "medium"
       description := "Provide general assistance based on detected patterns"
       reasoning := "Strong patterns detected, offering general support"
       suggested_actions := none
       timestamp := now
       execution_window := none }]
  else tasks

/-- `task.get("execution_window", {}).get("end", current_time + 3600)`. -/
def windowEndD (now : ℚ) (t : PTask) : ℚ :=
  match t.execution_window with
  | some w => w.2
  | none => now + 3600

/-- The category deduplication pass of `_cleanup_task_queue` (first-seen
category wins; every created task carries a `category` key, so the
`.get("category", "unknown")` default never fires). -/
def dedupByCategory (seen : List String) : List PTask → List PTask
  | [] => []
  | t :: ts =>
    if t.category ∈ seen then dedupByCategory seen ts
    else t :: dedupByCategory (t.category :: seen) ts

/-- `_cleanup_task_queue`: drop tasks whose (defaulted) window end is not
after `now`, then deduplicate by category. -/
def cleanupTaskQueue (now : ℚ) (q : List PTask) : List PTask :=
  dedupByCategory [] (q.filter fun t => decide (now < windowEndD now t))

/-- The task-queue effect of `plan_next_actions`: extend the engine queue with
the freshly generated plan, then run the cleanup.  (Pattern analysis and
prediction are the already-modelled functions; their outputs enter here as
`patternConfidence` and `preds`.) -/
def planNextActions (now : ℚ) (queue : List PTask) (patternConfidence : ℚ)
    (preds : List Prediction) : List PTask :=
  cleanupTaskQueue now (queue ++ generateProactivePlan now patternConfidence preds)

/-! ### Autonomous assistant (`autonomous_assistant.py`) -/

/-- An intervention record once the manager has stamped it (`id`,
`started_at`, `status`, `completed_at`). -/
structure InterventionRec where
  category : Option String
  id : String
  started_at : ℚ
  completed_at : ℚ
  status : String
deriving DecidableEq

/-- The mutable state of `AutonomousAssistantManager`. -/
structure AState where
  autonomous_mode : Bool
  active_interventions : List InterventionRec
  intervention_history : List InterventionRec
  intervention_cooldown : ℚ
  max_concurrent_interventions : ℕ
deriving DecidableEq

/-- The `__init__` state (cooldown 300 s, at most 3 concurrent, mode off). -/
def initAState : AState :=
  { autonomous_mode := false
    active_interventions := []
    intervention_history := []
    intervention_cooldown := 300
    max_concurrent_interventions := 3 }

/-- The value of `max(history, key=lambda x: x.get('completed_at', 0))
.get('completed_at', 0)` on a non-empty history. -/
def maxCompletedAt : List InterventionRec → ℚ
  | [] => 0
  | r :: rs => rs.foldl (fun m i => max m i.completed_at) r.completed_at

/-- `_is_in_cooldown`. -/
def isInCooldown (s : AState) (now : ℚ) : Bool :=
  !s.intervention_history.isEmpty &&
    decide (now - maxCompletedAt s.intervention_history < s.intervention_cooldown)

/-- The result statuses of `execute_proactive_intervention`. -/
inductive ExecStatus where
  | skipped
  | deferred
  | completed
  | failed
deriving DecidableEq

/-- `execute_proactive_intervention`, at wall-clock time `now`, for an
intervention dict whose `category` is `cat`.  `execOk` is whether the
delegated execution (`_execute_intervention_by_type`, which may call external
agents) returns normally; on either outcome the stamped record is appended
to the history and removed from the active list by id. -/
def executeProactiveIntervention (s : AState) (cat : Option String)
    (now : ℚ) (execOk : Bool) : ExecStatus × AState :=
  if !s.autonomous_mode then (.skipped, s)
  else if s.max_concurrent_interventions ≤ s.active_interventions.length then
    (.deferred, s)
  else if isInCooldown s now then (.deferred, s)
  else
    let iid := "intervention_" ++ toString (pyInt now)
    let iv : InterventionRec :=
      { category := cat
        id := iid
        started_at := now
        completed_at := now
        status := if execOk then "completed" else "failed" }
    ((if execOk then .completed else .failed),
     { s with
       active_interventions :=
         (s.active_interventions ++ [iv]).filter fun i => i.id != iid
       intervention_history := s.intervention_history ++ [iv] })

/-! ### Concrete inputs used by the claim theorems and witnesses -/

/-- A minimal non-message experience (a payload with only a `type` tag). -/
def expA : Experience := ⟨some "note", none, none, none, none⟩

/-- Scenario A: five experiences, three carrying the stress keywords in their
messages and a `stress` tag in their emotional contexts. -/
def scenAExps : List Experience :=
  [⟨some "user_message", some "I am so stressed about work",
    some (.dict [("stress", 8/10)]), some (8/10), none⟩,
   ⟨some "user_message", some "feeling overwhelmed today",
    some (.dict [("stress", 7/10)]), some (7/10), none⟩,
   ⟨some "user_message", some "deadline pressure is intense",
    some (.dict [("stress", 9/10)]), some (9/10), none⟩,
   ⟨some "user_message", some "hello there",
    some (.dict [("happy", 5/10)]), some (2/10), none⟩,
   ⟨some "user_message", some "nice weather",
    some (.dict [("calm", 5/10)]), some (1/10), none⟩]

/-- Five experiences whose messages contain the stress keywords
("stressed", "overwhelmed", "deadline pressure") but which store no
emotional context or intensity at all. -/
def cexC3Exps : List Experience :=
  [⟨some "user_message", some "I am so stressed about work", none, none, none⟩,
   ⟨some "user_message", some "feeling overwhelmed today", none, none, none⟩,
   ⟨some "user_message", some "deadline pressure is intense", none, none, none⟩,
   ⟨some "user_message", some "hello there", none, none, none⟩,
   ⟨some "user_message", some "nice weather", none, none, none⟩]

/-- Scenario B, first interaction payload. -/
def idata1 : InteractionData := ⟨some "My boss is being unreasonable"⟩

/-- Scenario B, second interaction payload. -/
def idata2 : InteractionData := ⟨some "My boss praised me"⟩

/-- Scenario B: the row created by the first mention of "boss". -/
def bossR1 : Relationship :=
  createRelationship "boss" "person" idata1 [("stress", 8/10)]

/-- Scenario B: the row after the second mention. -/
def bossR2 : Relationship := updateRelationship bossR1 idata2 [("positive", 6/10)]

/-- A confident prediction, as `predict_user_needs` would emit it. -/
def cexPred : Prediction :=
  ⟨"stress_management_support", 8/10, "Pattern-based prediction", []⟩

/-- A queued task that does carry an execution window (ending at 5000). -/
def taskW : PTask :=
  ⟨"t1", "proactive_intervention", "stress_management_support", 8/10, "urgent",
   "d", "r", none, 0, some (0, 5000)⟩

/-- The manager state after `enable_autonomous_mode()`. -/
def s0 : AState := { initAState with autonomous_mode := true }

/-! ### Helper lemmas -/

attribute [local semireducible] Rat.mul Rat.inv Rat.add Rat.sub Rat.ofScientific

theorem round2_intCast (n : ℤ) : round2 ((n : ℚ) / 100) = (n : ℚ) / 100 := by
  unfold round2
  rw [div_mul_cancel₀ (n : ℚ) (by norm_num : (100 : ℚ) ≠ 0), round_intCast]

theorem round2_natCast (n : ℕ) : round2 ((n : ℚ) / 100) = (n : ℚ) / 100 := by
  have h := round2_intCast (n : ℤ)
  simpa using h

theorem min_div50 (t : ℕ) : min ((t : ℚ) / 50) 1 = ((min t 50 : ℕ) : ℚ) / 50 := by
  rcases le_total t 50 with h | h
  · rw [min_eq_left ((div_le_one (by norm_num)).mpr (by exact_mod_cast h)),
      min_eq_left h]
  · rw [min_eq_right ((one_le_div (by norm_num)).mpr (by exact_mod_cast h)),
      min_eq_right h]
    norm_num

theorem min_div10 (p : ℕ) : min ((p : ℚ) / 10) 1 = ((min p 10 : ℕ) : ℚ) / 10 := by
  rcases le_total p 10 with h | h
  · rw [min_eq_left ((div_le_one (by norm_num)).mpr (by exact_mod_cast h)),
      min_eq_left h]
  · rw [min_eq_right ((one_le_div (by norm_num)).mpr (by exact_mod_cast h)),
      min_eq_right h]
    norm_num

theorem max_div_100 (x y : ℚ) : max (x / 100) (y / 100) = max x y / 100 := by
  rcases le_total x y with h | h
  · rw [max_eq_right h, max_eq_right (by linarith : x / 100 ≤ y / 100)]
  · rw [max_eq_left h, max_eq_left (by linarith : y / 100 ≤ x / 100)]

/-- Closed form of the overall confidence with a positive experience count:
the rounding is exact because the value is a whole number of hundredths. -/
theorem calcConf_closed (t p : ℕ) (ht : 0 < t) :
    calcOverallConfidence t p =
      max (1/10) ((min ((t : ℚ) / 50) 1 + min ((p : ℚ) / 10) 1) / 2) := by
  have h1 : max ((1 : ℚ)/10) ((min ((t : ℚ) / 50) 1 + min ((p : ℚ) / 10) 1) / 2)
      = ((max 10 (min t 50 + 5 * min p 10) : ℕ) : ℚ) / 100 := by
    rw [min_div50 t, min_div10 p]
    rw [show (((min t 50 : ℕ) : ℚ) / 50 + ((min p 10 : ℕ) : ℚ) / 10) / 2
        = (((min t 50 : ℕ) : ℚ) + 5 * ((min p 10 : ℕ) : ℚ)) / 100 by ring]
    rw [show ((1 : ℚ)/10) = 10 / 100 by norm_num]
    rw [max_div_100]
    push_cast
    ring
  simp only [calcOverallConfidence]
  rw [if_pos ht, h1, round2_natCast, ← h1]

/-- With at least one experience the confidence never drops below 0.1. -/
theorem calcConf_ge (t p : ℕ) (ht : 0 < t) : 1/10 ≤ calcOverallConfidence t p := by
  rw [calcConf_closed t p ht]
  exact le_max_left _ _

/-! ### Claim C1 -/

/-- C1, counterexample: a single-experience input (fewer than 3 experiences)
does not produce the insufficient-data result — the full analysis runs, the
confidence score is 0.1 (not 0.0) and no insufficient-data message is set. -/
theorem c1_counterexample :
    [expA].length < 3 ∧
    (analyzeAllPatterns 0 "u" 14 [expA]).confidence_score = 1/10 ∧
    ((1 : ℚ)/10 ≠ 0) ∧
    (analyzeAllPatterns 0 "u" 14 [expA]).message = none := by
  have h0 : (analyzeAllPatterns 0 "u" 14 [expA]).pattern_summary.total_patterns_detected
      = 0 := by decide
  have h1 : (analyzeAllPatterns 0 "u" 14 [expA]).confidence_score =
      calcOverallConfidence 1
        (analyzeAllPatterns 0 "u" 14 [expA]).pattern_summary.total_patterns_detected :=
    rfl
  rw [h0] at h1
  refine ⟨by norm_num, ?_, by norm_num, rfl⟩
  rw [h1, calcConf_closed 1 0 (by norm_num)]
  norm_num [min_def, max_def]

/-- C1, amended: `analyze_all_patterns` is a total function (never throws) and
returns the explicit insufficient-data result (confidence 0.0, message set)
exactly when the experience list is empty — there is no time-window filtering;
for any non-empty list (so also for 1 or 2 experiences) the full analysis runs,
the message is absent and the confidence score is at least 0.1. -/
theorem c1_amended_insufficient_data :
    (∀ (now : ℚ) (uid : String) (days : ℕ) (exps : List Experience),
      exps ≠ [] →
        1/10 ≤ (analyzeAllPatterns now uid days exps).confidence_score ∧
        (analyzeAllPatterns now uid days exps).message = none) ∧
    (∀ (now : ℚ) (uid : String) (days : ℕ),
      analyzeAllPatterns now uid days [] =
        emptyAnalysisResult now "Insufficient interaction data") := by
  constructor
  · intro now uid days exps h
    cases exps with
    | nil => exact absurd rfl h
    | cons a l =>
      constructor
      · have heq : (analyzeAllPatterns now uid days (a :: l)).confidence_score =
            calcOverallConfidence (a :: l).length
              (analyzeAllPatterns now uid days (a :: l)).pattern_summary.total_patterns_detected :=
          rfl
        rw [heq]
        exact calcConf_ge _ _ (by simp)
      · rfl
  · intro now uid days
    rfl

/-- C1, witness for the amended theorem at the one-experience input. -/
theorem c1_amended_witness :
    ([expA] : List Experience) ≠ [] ∧
    1/10 ≤ (analyzeAllPatterns 0 "u" 14 [expA]).confidence_score ∧
    (analyzeAllPatterns 0 "u" 14 [expA]).message = none :=
  ⟨by simp, (c1_amended_insufficient_data.1 0 "u" 14 [expA] (by simp)).1,
   (c1_amended_insufficient_data.1 0 "u" 14 [expA] (by simp)).2⟩

/-! ### Claim C4 -/

/-- C4, counterexample: for a single experience with no detected patterns the
claimed plain average is 0.01, but the code returns 0.1 (the `max(0.1, ·)`
floor the claim omits). -/
theorem c4_counterexample :
    (analyzeAllPatterns 0 "u" 14 [expA]).total_experiences = 1 ∧
    (analyzeAllPatterns 0 "u" 14 [expA]).pattern_summary.total_patterns_detected = 0 ∧
    ((min 1 ((1 : ℚ)/50) + min 1 ((0 : ℚ)/10)) / 2 = 1/100) ∧
    (analyzeAllPatterns 0 "u" 14 [expA]).confidence_score = 1/10 ∧
    ((1 : ℚ)/10 ≠ 1/100) := by
  have h0 : (analyzeAllPatterns 0 "u" 14 [expA]).pattern_summary.total_patterns_detected
      = 0 := by decide
  have h1 : (analyzeAllPatterns 0 "u" 14 [expA]).confidence_score =
      calcOverallConfidence 1
        (analyzeAllPatterns 0 "u" 14 [expA]).pattern_summary.total_patterns_detected :=
    rfl
  rw [h0] at h1
  refine ⟨rfl, h0, by norm_num [min_def], ?_, by norm_num⟩
  rw [h1, calcConf_closed 1 0 (by norm_num)]
  norm_num [min_def, max_def]

/-- C4, amended: when experiences exist, the returned confidence score equals
`max(0.1, ·)` of the average of `min(1, total/50)` and `min(1, patterns/10)`
(the rounding to two decimals is exact because that value is a whole number
of hundredths); it equals 0 when no experiences exist. -/
theorem c4_amended_confidence_formula :
    (∀ (now : ℚ) (uid : String) (days : ℕ) (exps : List Experience),
      exps ≠ [] →
        (analyzeAllPatterns now uid days exps).confidence_score =
          max (1/10)
            ((min ((exps.length : ℚ) / 50) 1 +
              min (((analyzeAllPatterns now uid days exps).pattern_summary.total_patterns_detected : ℚ) / 10) 1) / 2)) ∧
    (∀ (now : ℚ) (uid : String) (days : ℕ),
      (analyzeAllPatterns now uid days []).confidence_score = 0) := by
  constructor
  · intro now uid days exps h
    cases exps with
    | nil => exact absurd rfl h
    | cons a l =>
      have heq : (analyzeAllPatterns now uid days (a :: l)).confidence_score =
          calcOverallConfidence (a :: l).length
            (analyzeAllPatterns now uid days (a :: l)).pattern_summary.total_patterns_detected :=
        rfl
      rw [heq, calcConf_closed _ _ (by simp)]
  · intro now uid days
    rfl

/-- C4, witness for the amended theorem at the one-experience input. -/
theorem c4_amended_witness :
    ([expA] : List Experience) ≠ [] ∧
    (analyzeAllPatterns 0 "u" 14 [expA]).confidence_score =
      max (1/10)
        ((min (([expA].length : ℚ) / 50) 1 +
          min (((analyzeAllPatterns 0 "u" 14 [expA]).pattern_summary.total_patterns_detected : ℚ) / 10) 1) / 2) :=
  ⟨by simp, c4_amended_confidence_formula.1 0 "u" 14 [expA] (by simp)⟩

/-! ### Claim C3 -/

theorem detectFromSigs_stress (sigs : List (EmoCtx × ℚ))
    (h : minPatternOccurrences ≤ sigs.length) :
    (detectEmotionalFromSigs sigs).stress_frequency = emoStressFreq sigs ∧
    (detectEmotionalFromSigs sigs).emotional_trends = emoTrends sigs := by
  unfold detectEmotionalFromSigs
  rw [if_pos h]
  exact ⟨rfl, rfl⟩

theorem detectFromSigs_spec (sigs : List (EmoCtx × ℚ))
    (h : minPatternOccurrences ≤ sigs.length) :
    (detectEmotionalFromSigs sigs).stress_frequency =
      ((sigs.filter fun p => ctxStressHit p.1).length : ℚ) / sigs.length ∧
    (3/10 < (detectEmotionalFromSigs sigs).stress_frequency →
      "high_stress_frequency" ∈ (detectEmotionalFromSigs sigs).emotional_trends) := by
  obtain ⟨h1, h2⟩ := detectFromSigs_stress sigs h
  refine ⟨h1, ?_⟩
  intro hsf
  rw [h1] at hsf
  rw [h2]
  unfold emoTrends
  rw [if_pos hsf]
  exact List.mem_append_left _ (List.mem_singleton_self _)

/-- The signal list reads only the context and intensity fields. -/
theorem emoSigs_map_message (exps : List Experience)
    (g : Experience → Option String) :
    emoSigs (exps.map fun e => { e with message := g e }) = emoSigs exps := by
  induction exps with
  | nil => rfl
  | cons a l ih =>
    unfold emoSigs at ih ⊢
    simp only [List.map_cons, List.filter_cons]
    cases hc : (a.emoCtx.isSome || a.emoIntensity.isSome) with
    | true =>
      rw [if_pos rfl, if_pos rfl]
      simp only [List.map_cons]
      exact congrArg₂ List.cons rfl ih
    | false =>
      rw [if_neg (by simp), if_neg (by simp)]
      exact ih

/-- C3, amended: the emotional sub-analysis takes its stress hits from the
stored emotional contexts only (message text is never scanned — replacing all
messages leaves the result unchanged) and divides by the number of experiences
carrying emotional context or intensity (not by the total number of messages),
requiring at least `minPatternOccurrences` such experiences; for 5 experiences
of which 3 carry a `stress` emotional-context tag, stressFrequency is 0.6 and
the trends include `high_stress_frequency`. -/
theorem c3_amended_stress_frequency :
    (∀ exps : List Experience, minPatternOccurrences ≤ (emoSigs exps).length →
      (detectEmotionalPatterns exps).stress_frequency =
        (((emoSigs exps).filter fun p => ctxStressHit p.1).length : ℚ) /
          (emoSigs exps).length ∧
      (3/10 < (detectEmotionalPatterns exps).stress_frequency →
        "high_stress_frequency" ∈ (detectEmotionalPatterns exps).emotional_trends)) ∧
    (∀ exps : List Experience,
      (emoSigs exps).length =
        (exps.filter fun e => e.emoCtx.isSome || e.emoIntensity.isSome).length) ∧
    (∀ (exps : List Experience) (g : Experience → Option String),
      detectEmotionalPatterns (exps.map fun e => { e with message := g e }) =
        detectEmotionalPatterns exps) ∧
    ((detectEmotionalPatterns scenAExps).stress_frequency = 3/5 ∧
     "high_stress_frequency" ∈ (detectEmotionalPatterns scenAExps).emotional_trends) := by
  refine ⟨?_, ?_, ?_, by decide, by decide⟩
  · intro exps h
    exact detectFromSigs_spec (emoSigs exps) h
  · intro exps
    unfold emoSigs
    exact List.length_map _ _
  · intro exps g
    unfold detectEmotionalPatterns
    rw [emoSigs_map_message]

/-- C3, witness for the amended theorem at the Scenario-A experiences. -/
theorem c3_amended_witness :
    minPatternOccurrences ≤ (emoSigs scenAExps).length ∧
    (detectEmotionalPatterns scenAExps).stress_frequency =
      (((emoSigs scenAExps).filter fun p => ctxStressHit p.1).length : ℚ) /
        (emoSigs scenAExps).length :=
  ⟨by decide, (c3_amended_stress_frequency.1 scenAExps (by decide)).1⟩

/-- C3, counterexample: five experiences whose messages contain the stress
keywords but which store no emotional context at all — the scenario the claim
describes ("found by scanning message text") — yield stressFrequency 0, not
0.6, and no `high_stress_frequency` trend. -/
theorem c3_counterexample :
    cexC3Exps.length = 5 ∧
    (detectEmotionalPatterns cexC3Exps).stress_frequency = 0 ∧
    ((0 : ℚ) ≠ 3/5) ∧
    "high_stress_frequency" ∉ (detectEmotionalPatterns cexC3Exps).emotional_trends := by
  refine ⟨rfl, by decide, by norm_num, by decide⟩

/-! ### Claim C2 -/

/-- C2, amended (general part): `predict_user_needs` never reads the analyzed
stressFrequency; when the consolidation path yields no predictions it counts
stress-related experiences directly and, from 2 hits on, emits a
`stress_management_support` prediction with confidence
`min(0.9, 0.5 + count*0.1)` — not `min(0.9, 0.6 + stressFrequency*0.4)`. -/
theorem c2_amended_fallback_formula :
    ∀ (ins : Option (List String)) (exps : List Experience),
      consolPreds ins = [] → 2 ≤ fallbackStressCount exps →
      ∃ p ∈ (predictUserNeeds ins exps).predictions,
        p.predicted_need = "stress_management_support" ∧
        p.confidence = min (9/10) (1/2 + (fallbackStressCount exps : ℚ) * (1/10)) := by
  intro ins exps hc hs
  have hpreds : (predictUserNeeds ins exps).predictions = fallbackPredictions exps := by
    unfold predictUserNeeds
    rw [hc]
    rfl
  rw [hpreds]
  unfold fallbackPredictions
  rw [if_pos hs]
  exact ⟨_, List.mem_append_left _ (List.mem_append_left _ (List.mem_singleton_self _)),
    rfl, rfl⟩

/-- C2, witness for the amended theorem at the Scenario-A window. -/
theorem c2_amended_witness :
    consolPreds (some []) = [] ∧ 2 ≤ fallbackStressCount scenAExps ∧
    ∃ p ∈ (predictUserNeeds (some []) scenAExps).predictions,
      p.predicted_need = "stress_management_support" ∧
      p.confidence = min (9/10) (1/2 + (fallbackStressCount scenAExps : ℚ) * (1/10)) :=
  ⟨rfl, by decide, c2_amended_fallback_formula (some []) scenAExps rfl (by decide)⟩

/-- C2, counterexample: on the Scenario-A window the analyzed stressFrequency
is 0.6 > 0.2, yet the emitted `stress_management_support` confidence is 0.8,
not `min(0.9, 0.6 + 0.6*0.4) = 0.84`. -/
theorem c2_counterexample :
    (detectEmotionalPatterns scenAExps).stress_frequency = 3/5 ∧
    ((1 : ℚ)/5 < 3/5) ∧
    ((predictUserNeeds (some []) scenAExps).predictions.map
      fun p => (p.predicted_need, p.confidence)) =
      [("stress_management_support", 4/5)] ∧
    ((4 : ℚ)/5 ≠ min (9/10) (6/10 + (3/5) * (4/10))) := by
  refine ⟨by decide, by norm_num, by decide, ?_⟩
  rw [min_eq_right (by norm_num : (6 : ℚ)/10 + (3/5) * (4/10) ≤ 9/10)]
  norm_num

/-! ### Claim C5 -/

/-- C5: the first mention of "boss" with `{stress: 0.8}` creates the row with
familiarity 0.05, strength 0.1, one negative and no positive interaction; the
second mention with `{positive: 0.6}` updates familiarity to 2/20 = 0.1 and
recomputes the strength as `0.1*0.6 + 0.5*0.4 = 0.26`. -/
theorem c5_boss_relationship :
    bossR1.familiarity = 1/20 ∧
    bossR1.relationship_strength = 1/10 ∧
    bossR1.negative_interactions = 1 ∧
    bossR1.positive_interactions = 0 ∧
    bossR2.familiarity = 1/10 ∧
    bossR2.positive_interactions = 1 ∧
    bossR2.negative_interactions = 1 ∧
    bossR2.relationship_strength = (1/10) * (6/10) + (1/2) * (4/10) ∧
    bossR2.relationship_strength = 13/50 := by
  refine ⟨rfl, rfl, by decide, by decide, by decide, by decide, by decide,
    by decide, by decide⟩

/-! ### Claim C6 -/

theorem computeStrength_bounds (fam : ℚ) (pos neg : ℕ)
    (h0 : 0 ≤ fam) (h1 : fam ≤ 1) :
    0 ≤ computeStrength fam pos neg ∧ computeStrength fam pos neg ≤ 1 := by
  unfold computeStrength
  split_ifs with hpn
  · have hsum : (0 : ℚ) < ((pos + neg : ℕ) : ℚ) := by exact_mod_cast hpn
    have hr0 : 0 ≤ (pos : ℚ) / ((pos + neg : ℕ) : ℚ) :=
      div_nonneg (by positivity) hsum.le
    have hr1 : (pos : ℚ) / ((pos + neg : ℕ) : ℚ) ≤ 1 := by
      rw [div_le_one hsum]
      exact_mod_cast Nat.le_add_right pos neg
    constructor <;> nlinarith
  · constructor <;> nlinarith

theorem updateRelationship_strength_bounds (r : Relationship)
    (idata : InteractionData) (emos : List (String × ℚ)) :
    0 ≤ (updateRelationship r idata emos).relationship_strength ∧
    (updateRelationship r idata emos).relationship_strength ≤ 1 := by
  have heq : (updateRelationship r idata emos).relationship_strength =
      computeStrength (min 1 (((r.total_interactions + 1 : ℕ) : ℚ) / 20))
        (updateRelationship r idata emos).positive_interactions
        (updateRelationship r idata emos).negative_interactions := rfl
  rw [heq]
  exact computeStrength_bounds _ _ _
    (le_min (by norm_num) (by positivity)) (min_le_left _ _)

theorem runUpdates_strength_bounds
    (steps : List (InteractionData × List (String × ℚ))) (r : Relationship)
    (h : 0 ≤ r.relationship_strength ∧ r.relationship_strength ≤ 1) :
    0 ≤ (runUpdates r steps).relationship_strength ∧
    (runUpdates r steps).relationship_strength ≤ 1 := by
  induction steps generalizing r with
  | nil => exact h
  | cons s ss ih =>
    exact ih (updateRelationship r s.1 s.2)
      (updateRelationship_strength_bounds r s.1 s.2)

/-- C6: for every sequence of `add_or_update_relationship` calls on an entity
(the creation followed by arbitrary updates) the relationship strength stays
in [0, 1], and the strength computation is non-decreasing in familiarity when
the positivity data (hence the positivity ratio) is held fixed. -/
theorem c6_strength_bounds_monotone :
    (∀ (en et : String) (idata : InteractionData) (emos : List (String × ℚ))
       (steps : List (InteractionData × List (String × ℚ))),
      0 ≤ (runUpdates (createRelationship en et idata emos) steps).relationship_strength ∧
      (runUpdates (createRelationship en et idata emos) steps).relationship_strength ≤ 1) ∧
    (∀ (fam₁ fam₂ : ℚ) (pos neg : ℕ), fam₁ ≤ fam₂ →
      computeStrength fam₁ pos neg ≤ computeStrength fam₂ pos neg) := by
  constructor
  · intro en et idata emos steps
    apply runUpdates_strength_bounds
    have hc : (createRelationship en et idata emos).relationship_strength = 1/10 := rfl
    rw [hc]
    norm_num
  · intro fam₁ fam₂ pos neg h
    unfold computeStrength
    split_ifs with hpn
    · have hsum : (0 : ℚ) < ((pos + neg : ℕ) : ℚ) := by exact_mod_cast hpn
      have hr0 : 0 ≤ (pos : ℚ) / ((pos + neg : ℕ) : ℚ) :=
        div_nonneg (by positivity) hsum.le
      nlinarith
    · nlinarith

/-- C6, witness: the Scenario-B sequence stays in bounds, and a concrete
familiarity increase does not decrease the computed strength. -/
theorem c6_witness :
    (0 ≤ (runUpdates (createRelationship "boss" "person" idata1 [("stress", 8/10)])
        [(idata2, [("positive", 6/10)])]).relationship_strength ∧
     (runUpdates (createRelationship "boss" "person" idata1 [("stress", 8/10)])
        [(idata2, [("positive", 6/10)])]).relationship_strength ≤ 1) ∧
    ((1 : ℚ)/10 ≤ 2/10) ∧
    computeStrength (1/10) 1 1 ≤ computeStrength (2/10) 1 1 :=
  ⟨c6_strength_bounds_monotone.1 "boss" "person" idata1 [("stress", 8/10)]
     [(idata2, [("positive", 6/10)])],
   by norm_num,
   c6_strength_bounds_monotone.2 (1/10) (2/10) 1 1 (by norm_num)⟩

/-! ### Claim C10 -/

/-- C10: the positive/negative classification differs between creation and
update — at creation only `{positive, happy}` / `{stress, negative}` count, at
update `{positive, happy, excited, grateful}` / `{stress, frustrated, angry,
sad}` do; hence a first mention with `{excited: 0.9}` records no positive
interaction while any later identical mention increments the positive count. -/
theorem c10_classification_sets :
    (createRelationship "boss" "person" idata1 [("excited", 9/10)]).positive_interactions = 0 ∧
    (createRelationship "boss" "person" idata1 [("excited", 9/10)]).negative_interactions = 0 ∧
    createPosEmotions = ["positive", "happy"] ∧
    createNegEmotions = ["stress", "negative"] ∧
    updatePosEmotions = ["positive", "happy", "excited", "grateful"] ∧
    updateNegEmotions = ["stress", "frustrated", "angry", "sad"] ∧
    ∀ (r : Relationship) (idata : InteractionData),
      (updateRelationship r idata [("excited", 9/10)]).positive_interactions =
        r.positive_interactions + 1 := by
  refine ⟨by decide, by decide, rfl, rfl, rfl, rfl, ?_⟩
  intro r idata
  rfl

/-! ### Claim C7 -/

theorem dedupByCategory_pairwise (seen : List String) (l : List PTask) :
    (dedupByCategory seen l).Pairwise (fun a b => a.category ≠ b.category) ∧
    ∀ t ∈ dedupByCategory seen l, t.category ∉ seen := by
  induction l generalizing seen with
  | nil => exact ⟨List.Pairwise.nil, by simp [dedupByCategory]⟩
  | cons t ts ih =>
    unfold dedupByCategory
    by_cases hc : t.category ∈ seen
    · rw [if_pos hc]
      exact ih seen
    · rw [if_neg hc]
      obtain ⟨ihp, ihs⟩ := ih (t.category :: seen)
      constructor
      · refine List.Pairwise.cons ?_ ihp
        intro b hb
        have := ihs b hb
        simp only [List.mem_cons, not_or] at this
        exact fun h => this.1 h.symm
      · intro x hx
        rcases List.mem_cons.mp hx with rfl | hx'
        · exact hc
        · have := ihs x hx'
          simp only [List.mem_cons, not_or] at this
          exact this.2

theorem dedupByCategory_find? (seen : List String) (l : List PTask) (c : String)
    (hc : c ∉ seen) :
    (dedupByCategory seen l).find? (fun t => t.category == c) =
      l.find? (fun t => t.category == c) := by
  induction l generalizing seen with
  | nil => rfl
  | cons t ts ih =>
    unfold dedupByCategory
    by_cases hm : t.category ∈ seen
    · rw [if_pos hm]
      have hne : (t.category == c) = false := by
        simp only [beq_eq_false_iff_ne, ne_eq]
        exact fun h => hc (h ▸ hm)
      rw [List.find?_cons_of_neg _ (by simp [hne]), ih seen hc]
    · rw [if_neg hm]
      by_cases heq : t.category = c
      · rw [List.find?_cons_of_pos _ (by simp [heq]),
          List.find?_cons_of_pos _ (by simp [heq])]
      · rw [List.find?_cons_of_neg _ (by simp [heq]),
          List.find?_cons_of_neg _ (by simp [heq])]
        exact ih (t.category :: seen) (by simp [hc, Ne.symm heq])

/-- C7: after every `plan_next_actions` call the queue holds at most one task
per category — no two queued tasks share a category — and the survivor for
each category is the first-seen task among the (non-expired) planned queue. -/
theorem c7_queue_dedup :
    ∀ (now : ℚ) (queue : List PTask) (patternConfidence : ℚ)
      (preds : List Prediction),
      (planNextActions now queue patternConfidence preds).Pairwise
        (fun a b => a.category ≠ b.category) ∧
      ∀ c : String,
        (planNextActions now queue patternConfidence preds).find?
            (fun t => t.category == c) =
          ((queue ++ generateProactivePlan now patternConfidence preds).filter
            fun t => decide (now < windowEndD now t)).find?
            (fun t => t.category == c) := by
  intro now queue patternConfidence preds
  constructor
  · exact (dedupByCategory_pairwise [] _).1
  · intro c
    exact dedupByCategory_find? [] _ c (by simp)

/-! ### Claim C8 -/

theorem dedupByCategory_subset (seen : List String) (l : List PTask) :
    ∀ t ∈ dedupByCategory seen l, t ∈ l := by
  induction l generalizing seen with
  | nil => simp [dedupByCategory]
  | cons x xs ih =>
    unfold dedupByCategory
    by_cases hc : x.category ∈ seen
    · rw [if_pos hc]
      exact fun t ht => List.mem_cons_of_mem x (ih seen t ht)
    · rw [if_neg hc]
      intro t ht
      rcases List.mem_cons.mp ht with rfl | ht'
      · exact List.mem_cons_self _ _
      · exact List.mem_cons_of_mem x (ih (x.category :: seen) t ht')

/-- C8, amended: after `plan_next_actions`, any queued task that carries an
execution window has a window end strictly after the current time (elapsed
windows are dropped by the cleanup); but planned tasks carry no execution
window at all (`_calculate_execution_window` is never invoked) and are kept
under the cleanup's default end of `now + 3600`. -/
theorem c8_amended_no_elapsed_window :
    ∀ (now : ℚ) (queue : List PTask) (patternConfidence : ℚ)
      (preds : List Prediction) (t : PTask) (w : ℚ × ℚ),
      t ∈ planNextActions now queue patternConfidence preds →
      t.execution_window = some w → now < w.2 := by
  intro now queue patternConfidence preds t w ht hw
  have hmem := dedupByCategory_subset [] _ t ht
  have hkeep := (List.mem_filter.mp hmem).2
  have hlt : now < windowEndD now t := of_decide_eq_true hkeep
  rw [windowEndD, hw] at hlt
  exact hlt

/-- C8, witness: a queued task carrying the window (0, 5000) survives a
cleanup at time 1000 and the theorem yields 1000 < 5000. -/
theorem c8_amended_witness :
    taskW ∈ planNextActions 1000 [taskW] 0 [] ∧
    taskW.execution_window = some (0, 5000) ∧
    (1000 : ℚ) < 5000 :=
  ⟨by decide, rfl, c8_amended_no_elapsed_window 1000 [taskW] 0 [] taskW (0, 5000)
     (by decide) rfl⟩

/-- C8, counterexample: the task planned from a confident prediction carries
no `execution_window` key at all (so "every planned ProactiveTask carries an
execution window" is false), and it is nevertheless retained in the active
queue by `plan_next_actions`. -/
theorem c8_counterexample :
    (generateProactivePlan 1000 0 [cexPred]).map PTask.execution_window = [none] ∧
    (planNextActions 1000 [] 0 [cexPred]).map PTask.execution_window = [none] := by
  constructor <;> decide

/-! ### Claim C9 -/

theorem foldl_max_init_le (l : List InterventionRec) (a : ℚ) :
    a ≤ l.foldl (fun m i => max m i.completed_at) a := by
  induction l generalizing a with
  | nil => exact le_refl a
  | cons x xs ih => exact le_trans (le_max_left a x.completed_at) (ih _)

theorem foldl_max_le_of_mem {i : InterventionRec} (l : List InterventionRec)
    (a : ℚ) (h : i ∈ l) :
    i.completed_at ≤ l.foldl (fun m j => max m j.completed_at) a := by
  induction l generalizing a with
  | nil => cases h
  | cons x xs ih =>
    rcases List.mem_cons.mp h with rfl | h'
    · exact le_trans (le_max_right a i.completed_at) (foldl_max_init_le xs _)
    · exact ih _ h'

theorem maxCompletedAt_append_last (h : List InterventionRec)
    (iv : InterventionRec) :
    iv.completed_at ≤ maxCompletedAt (h ++ [iv]) := by
  cases h with
  | nil => simp [maxCompletedAt]
  | cons x xs =>
    show iv.completed_at ≤
      (xs ++ [iv]).foldl (fun m j => max m j.completed_at) x.completed_at
    exact foldl_max_le_of_mem _ _ (by simp)

theorem execute_exec_guards (s : AState) (cat : Option String) (now : ℚ)
    (execOk : Bool)
    (h : (executeProactiveIntervention s cat now execOk).1 = ExecStatus.completed ∨
         (executeProactiveIntervention s cat now execOk).1 = ExecStatus.failed) :
    ¬((!s.autonomous_mode) = true) ∧
    ¬(s.max_concurrent_interventions ≤ s.active_interventions.length) ∧
    ¬(isInCooldown s now = true) := by
  unfold executeProactiveIntervention at h
  split_ifs at h with h1 h2 h3 h4 <;> try simp at h
  · exact ⟨h1, h2, h3⟩
  · exact ⟨h1, h2, h3⟩

theorem execute_success_state (s : AState) (cat : Option String) (now : ℚ)
    (execOk : Bool) (h1 : ¬((!s.autonomous_mode) = true))
    (h2 : ¬(s.max_concurrent_interventions ≤ s.active_interventions.length))
    (h3 : ¬(isInCooldown s now = true)) :
    ∃ iv : InterventionRec, iv.completed_at = now ∧
      (executeProactiveIntervention s cat now execOk).2.intervention_history =
        s.intervention_history ++ [iv] ∧
      (executeProactiveIntervention s cat now execOk).2.autonomous_mode =
        s.autonomous_mode ∧
      (executeProactiveIntervention s cat now execOk).2.intervention_cooldown =
        s.intervention_cooldown := by
  unfold executeProactiveIntervention
  rw [if_neg h1, if_neg h2, if_neg h3]
  exact ⟨_, rfl, rfl, rfl, rfl⟩

/-- C9: the intervention cooldown defaults to 300 s; `_is_in_cooldown` is
exactly the wall-clock gate `now − lastCompletion < cooldown`; an intervention
only reaches execution (completed or failed) outside the cooldown window; an
attempt inside the window under autonomous mode is deferred with the state
unchanged; and after an executed intervention at `t₁`, any second attempt at
`t₂` with `t₂ − t₁ < cooldown` is deferred (so two cycles inside the window
never both execute, whatever the category). -/
theorem c9_cooldown_gating :
    initAState.intervention_cooldown = 300 ∧
    (∀ (s : AState) (now : ℚ),
      isInCooldown s now = false ↔
        (s.intervention_history = [] ∨
         s.intervention_cooldown ≤ now - maxCompletedAt s.intervention_history)) ∧
    (∀ (s : AState) (cat : Option String) (now : ℚ) (execOk : Bool),
      ((executeProactiveIntervention s cat now execOk).1 = ExecStatus.completed ∨
       (executeProactiveIntervention s cat now execOk).1 = ExecStatus.failed) →
      isInCooldown s now = false) ∧
    (∀ (s : AState) (cat : Option String) (now : ℚ) (execOk : Bool),
      s.autonomous_mode = true → isInCooldown s now = true →
      executeProactiveIntervention s cat now execOk = (ExecStatus.deferred, s)) ∧
    (∀ (s : AState) (cat₁ cat₂ : Option String) (t₁ t₂ : ℚ) (ok₁ ok₂ : Bool),
      ((executeProactiveIntervention s cat₁ t₁ ok₁).1 = ExecStatus.completed ∨
       (executeProactiveIntervention s cat₁ t₁ ok₁).1 = ExecStatus.failed) →
      t₂ - t₁ < s.intervention_cooldown →
      (executeProactiveIntervention
        (executeProactiveIntervention s cat₁ t₁ ok₁).2 cat₂ t₂ ok₂).1 =
        ExecStatus.deferred) := by
  refine ⟨rfl, ?_, ?_, ?_, ?_⟩
  · intro s now
    cases hl : s.intervention_history with
    | nil => simp [isInCooldown, hl]
    | cons x xs => simp [isInCooldown, hl, not_lt]
  · intro s cat now execOk h
    obtain ⟨h1, h2, h3⟩ := execute_exec_guards s cat now execOk h
    exact Bool.eq_false_iff.mpr h3
  · intro s cat now execOk hm hcd
    unfold executeProactiveIntervention
    split_ifs with h1 h2
    · rw [hm] at h1
      simp at h1
    · rfl
    · rfl
  · intro s cat₁ cat₂ t₁ t₂ ok₁ ok₂ hed hlt
    obtain ⟨h1, h2, h3⟩ := execute_exec_guards s cat₁ t₁ ok₁ hed
    obtain ⟨iv, hiv, hhist, hmode, hcd⟩ :=
      execute_success_state s cat₁ t₁ ok₁ h1 h2 h3
    have hm : s.autonomous_mode = true := by
      cases hb : s.autonomous_mode with
      | false => rw [hb] at h1; simp at h1
      | true => rfl
    set s' := (executeProactiveIntervention s cat₁ t₁ ok₁).2 with hs'
    have hcool : isInCooldown s' t₂ = true := by
      unfold isInCooldown
      rw [hhist, hcd]
      have hne : (s.intervention_history ++ [iv]).isEmpty = false := by simp
      rw [hne]
      simp only [Bool.not_false, Bool.true_and]
      apply decide_eq_true
      have hge : iv.completed_at ≤ maxCompletedAt (s.intervention_history ++ [iv]) :=
        maxCompletedAt_append_last _ _
      rw [hiv] at hge
      linarith
    unfold executeProactiveIntervention
    split_ifs with g1 g2
    · rw [hmode, hm] at g1
      simp at g1
    · rfl
    · rfl

/-- C9, witness: with autonomous mode on and an empty history, an intervention
at t = 1000 executes; a second attempt at t = 1100 (inside the 300 s cooldown)
is deferred. -/
theorem c9_witness :
    ((executeProactiveIntervention s0 (some "stress_management_support") 1000 true).1 =
        ExecStatus.completed ∨
     (executeProactiveIntervention s0 (some "stress_management_support") 1000 true).1 =
        ExecStatus.failed) ∧
    (1100 : ℚ) - 1000 < s0.intervention_cooldown ∧
    (executeProactiveIntervention
      (executeProactiveIntervention s0 (some "stress_management_support") 1000 true).2
      (some "stress_management_support") 1100 true).1 = ExecStatus.deferred :=
  ⟨Or.inl (by decide), by decide,
   c9_cooldown_gating.2.2.2.2 s0 (some "stress_management_support")
     (some "stress_management_support") 1000 1100 true true
     (Or.inl (by decide)) (by decide)⟩

end AILifeOS
